import Mathlib

/-!
Water sensor monitor (Examples/monitor.js).

A shallow embedding of the class `WaterSensorMonitor` and of the poll loop of
`run`, followed by theorems about failure counting, alert-edge detection,
buffered logging and persistence.

Modelling conventions.

* The JS object `this` is the structure `WaterSensorMonitor`; everything the
  methods do to the outside world (console lines, HTTP requests, writes to the
  log file, process exit) is recorded in `State.trace`, and the content of
  the log file is `State.file`.
* What the outside world answers is an input of the method that asks: the
  outcome of `axios.get` (`FetchOutcome`), the outcome of `fs.writeFileSync`
  (`WriteOutcome`), and the clock readings of `new Date()`.
* The body of a successful response is a `Reading`: an object that carries the
  five fields of the device API with their documented types, plus any further
  fields (`extra`).  JS numbers are modelled as unbounded integers.
* `JSON.stringify(_, null, 2)` is a library function; it is the parameter
  `stringify` of the methods that reach `saveLog`.
* The text layout of console lines is not modelled: each `console.log`
  statement of the source is one constructor of `Line`, carrying the values
  that the statement interpolates.
-/

namespace WaterSensor

/-! ## Data model -/

/-- Primitive JSON values, as carried by the fields of a response object. -/
inductive JsVal where
  | null
  | bool (b : Bool)
  | num (n : Int)
  | str (s : String)
  deriving DecidableEq, Repr

/-- A JS object: its own enumerable properties in property order. -/
abbrev JsObject := List (String × JsVal)

/-- Assignment `o[k] = v`: an existing property keeps its position, a new one
goes last. -/
def JsObject.set (o : JsObject) (k : String) (v : JsVal) : JsObject :=
  if o.any (fun p => p.1 == k) then
    o.map (fun p => if p.1 == k then (k, v) else p)
  else
    o ++ [(k, v)]

/-- Object spread `{ ...target, ...source }` onto the properties already
written: each property of `source` is assigned in order. -/
def JsObject.spread (target source : JsObject) : JsObject :=
  source.foldl (fun o p => o.set p.1 p.2) target

/-- The body of a successful response of `/api/status`. -/
structure Reading where
  sensorValue : Int
  waterDetected : Bool
  totalAlerts : Int
  uptime : String
  signalStrength : Int
  extra : JsObject
  deriving DecidableEq, Repr

/-- The response as a JS object (what `...data` enumerates). -/
def Reading.toObject (r : Reading) : JsObject :=
  [("sensorValue", JsVal.num r.sensorValue),
   ("waterDetected", JsVal.bool r.waterDetected),
   ("totalAlerts", JsVal.num r.totalAlerts),
   ("uptime", JsVal.str r.uptime),
   ("signalStrength", JsVal.num r.signalStrength)] ++ r.extra

/-- Outcome of `await axios.get(this.apiUrl, { timeout: 5000 })`: the promise
resolves with `response.data`, or rejects with an error that has an optional
`code` and a `message`. -/
inductive FetchOutcome where
  | success (data : Reading)
  | failure (code : Option String) (message : String)
  deriving DecidableEq, Repr

/-- Outcome of `fs.writeFileSync(LOG_FILE, text)`: it returns, or it throws an
error with a `message`, leaving `left` as the content of the file (`none`: no
file). -/
inductive WriteOutcome where
  | ok
  | error (message : String) (left : Option String)
  deriving DecidableEq, Repr

/-- The `console.log` statements of the source, one constructor each. -/
inductive Line where
  /-- Line 37: connection timeout. -/
  | timeout
  /-- Line 39: connection refused. -/
  | refused
  /-- Line 41: any other fetch error, with `error.message`. -/
  | fetchError (message : String)
  /-- Line 74: error saving the log, with `error.message`. -/
  | saveError (message : String)
  /-- Line 96: blank line and rule opening a notification. -/
  | alertTop
  /-- Line 97: NEW WATER ALERT. -/
  | alertTitle
  /-- Line 98: rule. -/
  | alertRule
  /-- Line 99: time of the notification, `new Date().toLocaleString()`. -/
  | alertTime (localTime : String)
  /-- Line 100: sensor value. -/
  | alertSensorValue (sensorValue : Int)
  /-- Line 101: total alerts. -/
  | alertTotalAlerts (totalAlerts : Int)
  /-- Line 102: rule and blank line closing a notification. -/
  | alertBottom
  /-- Lines 123-129: the status line of `displayStatus`. -/
  | status (waterDetected : Bool) (sensorValue totalAlerts : Int) (uptime : String)
      (signalStrength : Int)
  /-- Line 137: warning with the number of consecutive failures. -/
  | healthWarning (consecutiveFailures : Nat)
  /-- Line 138: Arduino may be offline or unreachable. -/
  | healthOffline
  /-- Line 139: check power, WiFi and network connectivity. -/
  | healthAdvice
  /-- Lines 149, 151, 155: rule of the banner. -/
  | bannerRule
  /-- Line 150: title of the banner. -/
  | bannerTitle
  /-- Line 152: Arduino IP. -/
  | bannerIp (ip : String)
  /-- Line 153: polling interval, from `pollInterval` in milliseconds. -/
  | bannerInterval (pollInterval : Nat)
  /-- Line 154: log file. -/
  | bannerLogFile (file : String)
  /-- Line 156: press Ctrl+C to stop. -/
  | bannerStop
  /-- Line 184: monitoring stopped by user. -/
  | stopped
  /-- Line 185: log saved to the log file. -/
  | logSaved (file : String)
  deriving DecidableEq, Repr

/-- What a method does to the outside world. -/
inductive Effect where
  /-- A call of `console.log`. -/
  | print (line : Line)
  /-- A call of `axios.get(url, { timeout })`. -/
  | httpGet (url : String) (timeout : Nat)
  /-- A call of `fs.writeFileSync(file, text)` and whether it returned. -/
  | writeFile (file : String) (text : String) (returned : Bool)
  /-- A call of `process.exit(code)`. -/
  | exit (code : Nat)
  deriving DecidableEq, Repr

/-- Line 11. -/
def ARDUINO_IP : String := "192.168.1.100"

/-- Line 12. -/
def API_URL : String := "http://" ++ ARDUINO_IP ++ "/api/status"

/-- Line 13, in milliseconds. -/
def POLL_INTERVAL : Nat := 5000

/-- Line 14. -/
def LOG_FILE : String := "sensor_log.json"

/-- The fields of a `WaterSensorMonitor` object (lines 17-23). -/
structure WaterSensorMonitor where
  apiUrl : String
  lastAlertCount : Int
  consecutiveFailures : Nat
  maxFailures : Nat
  logData : List JsObject
  deriving DecidableEq, Repr

/-- The constructor (lines 17-23). -/
def WaterSensorMonitor.new (arduinoIp : String) : WaterSensorMonitor :=
  { apiUrl := "http://" ++ arduinoIp ++ "/api/status"
    lastAlertCount := 0
    consecutiveFailures := 0
    maxFailures := 5
    logData := [] }

/-- A monitor together with the outside world it acts on. -/
structure State where
  monitor : WaterSensorMonitor
  /-- Content of `LOG_FILE`, `none` when the file does not exist. -/
  file : Option String
  /-- Effects performed so far, oldest first. -/
  trace : List Effect
  deriving DecidableEq, Repr

/-- A freshly constructed monitor, the log file holding `file`. -/
def State.init (arduinoIp : String) (file : Option String) : State :=
  { monitor := WaterSensorMonitor.new arduinoIp, file := file, trace := [] }

/-- Append one effect to the trace. -/
def State.emit (s : State) (e : Effect) : State :=
  { s with trace := s.trace ++ [e] }

/-- One call of `console.log`. -/
def State.log (s : State) (l : Line) : State :=
  s.emit (Effect.print l)

/-! ## Methods -/

/-- The method `fetchStatus` (lines 28-46), given the outcome of the request.
Returns the state and the value returned (`none` is `null`). -/
def fetchStatus (o : FetchOutcome) (s : State) : State × Option Reading :=
  let s := s.emit (Effect.httpGet s.monitor.apiUrl 5000)
  match o with
  | FetchOutcome.success data =>
    ({ s with monitor := { s.monitor with consecutiveFailures := 0 } }, some data)
  | FetchOutcome.failure code message =>
    let s := { s with monitor :=
      { s.monitor with consecutiveFailures := s.monitor.consecutiveFailures + 1 } }
    let s :=
      if code = some "ECONNABORTED" then s.log Line.timeout
      else if code = some "ECONNREFUSED" then s.log Line.refused
      else s.log (Line.fetchError message)
    (s, none)

/-- The method `saveLog` (lines 70-76), given the outcome of the write. -/
def saveLog (stringify : List JsObject → String) (w : WriteOutcome) (s : State) : State :=
  let text := stringify s.monitor.logData
  match w with
  | WriteOutcome.ok =>
    { s.emit (Effect.writeFile LOG_FILE text true) with file := some text }
  | WriteOutcome.error message left =>
    ({ s.emit (Effect.writeFile LOG_FILE text false) with file := left }).log
      (Line.saveError message)

/-- The method `logReading` (lines 51-65): `now` is
`new Date().toISOString()`, `w` the outcome of the write if one is made. -/
def logReading (stringify : List JsObject → String) (now : String) (w : WriteOutcome)
    (data : Option Reading) (s : State) : State :=
  match data with
  | none => s
  | some r =>
    let logEntry := JsObject.spread [("timestamp", JsVal.str now)] r.toObject
    let s := { s with monitor := { s.monitor with logData := s.monitor.logData ++ [logEntry] } }
    if s.monitor.logData.length % 10 = 0 then saveLog stringify w s else s

/-- The method `checkNewAlert` (lines 81-90). -/
def checkNewAlert (data : Option Reading) (s : State) : State × Bool :=
  match data with
  | none => (s, false)
  | some r =>
    let currentAlerts := r.totalAlerts
    if currentAlerts > s.monitor.lastAlertCount then
      ({ s with monitor := { s.monitor with lastAlertCount := currentAlerts } }, true)
    else
      (s, false)

/-- The method `sendNotification` (lines 95-109): `localTime` is
`new Date().toLocaleString()`. -/
def sendNotification (localTime : String) (data : Reading) (s : State) : State :=
  ((((((s.log Line.alertTop).log Line.alertTitle).log Line.alertRule).log
    (Line.alertTime localTime)).log (Line.alertSensorValue data.sensorValue)).log
    (Line.alertTotalAlerts data.totalAlerts)).log Line.alertBottom

/-- The method `displayStatus` (lines 114-130). -/
def displayStatus (data : Option Reading) (s : State) : State :=
  match data with
  | none => s
  | some r =>
    s.log (Line.status r.waterDetected r.sensorValue r.totalAlerts r.uptime r.signalStrength)

/-- The method `checkHealth` (lines 135-143). -/
def checkHealth (s : State) : State × Bool :=
  if s.monitor.consecutiveFailures ≥ s.monitor.maxFailures then
    ((((s.log (Line.healthWarning s.monitor.consecutiveFailures)).log Line.healthOffline).log
      Line.healthAdvice), false)
  else
    (s, true)

/-- What the outside world supplies to one poll tick. -/
structure TickInput where
  /-- Outcome of the request of `fetchStatus`. -/
  fetch : FetchOutcome
  /-- Value of `new Date().toISOString()` in `logReading`. -/
  now : String
  /-- Value of `new Date().toLocaleString()` in `sendNotification`. -/
  localTime : String
  /-- Outcome of `fs.writeFileSync`, if the tick writes. -/
  write : WriteOutcome
  deriving DecidableEq, Repr

/-- The callback of `setInterval` in `run` (lines 159-178): one poll tick. -/
def tick (stringify : List JsObject → String) (i : TickInput) (s : State) : State :=
  let (s, data) := fetchStatus i.fetch s
  let (s, healthy) := checkHealth s
  if !healthy then s
  else
    let s := displayStatus data s
    let s := logReading stringify i.now i.write data s
    let (s, isNew) := checkNewAlert data s
    if isNew then
      match data with
      | some r => sendNotification i.localTime r s
      | none => s -- not reached: `checkNewAlert` returns false on `null`
    else s

/-- The banner printed by `run` before the loop starts (lines 149-156). -/
def banner (pollInterval : Nat) (s : State) : State :=
  (((((((s.log Line.bannerRule).log Line.bannerTitle).log Line.bannerRule).log
    (Line.bannerIp ARDUINO_IP)).log (Line.bannerInterval pollInterval)).log
    (Line.bannerLogFile LOG_FILE)).log Line.bannerRule).log Line.bannerStop

/-- The ticks of a run, in the order in which their requests complete. -/
def runTicks (stringify : List JsObject → String) (is : List TickInput) (s : State) : State :=
  is.foldl (fun s i => tick stringify i s) s

/-- The `SIGINT` handler of `run` (lines 181-187). -/
def sigint (stringify : List JsObject → String) (w : WriteOutcome) (s : State) : State :=
  (((saveLog stringify w s).log Line.stopped).log (Line.logSaved LOG_FILE)).emit (Effect.exit 0)

/-- The method `run` (lines 148-188) for a run that performs the ticks `is`
and is then interrupted. -/
def run (stringify : List JsObject → String) (pollInterval : Nat) (is : List TickInput)
    (w : WriteOutcome) (s : State) : State :=
  sigint stringify w (runTicks stringify is (banner pollInterval s))

/-- The function `main` (lines 192-199): `argv2` is `process.argv[2]`, and an
empty string is falsy. -/
def main (stringify : List JsObject → String) (argv2 : Option String) (file : Option String)
    (is : List TickInput) (w : WriteOutcome) : State :=
  let arduinoIp := match argv2 with
    | some ip => if ip = "" then ARDUINO_IP else ip
    | none => ARDUINO_IP
  run stringify POLL_INTERVAL is w (State.init arduinoIp file)

/-! ## Observations on runs -/

/-- Apply `fetchStatus` for each outcome in turn, dropping the values returned. -/
def fetchAll (os : List FetchOutcome) (s : State) : State :=
  os.foldl (fun s o => (fetchStatus o s).1) s

/-- Whether an outcome is a failed fetch. -/
def FetchOutcome.isFailure : FetchOutcome → Bool
  | FetchOutcome.success _ => false
  | FetchOutcome.failure _ _ => true

/-- Length of the trailing run of failures of a sequence of outcomes. -/
def trailingFailures (os : List FetchOutcome) : Nat :=
  (os.reverse.takeWhile FetchOutcome.isFailure).length

/-- Apply `checkNewAlert` to each reading in turn; returns the final state and
the value returned by each call. -/
def feedAlerts : List Reading → State → State × List Bool
  | [], s => (s, [])
  | r :: rs, s =>
    let (s1, b) := checkNewAlert (some r) s
    let (s2, bs) := feedAlerts rs s1
    (s2, b :: bs)

/-- A reading with the given `totalAlerts`, the other fields at sample values. -/
def Reading.ofAlerts (totalAlerts : Int) : Reading :=
  { sensorValue := 0, waterDetected := false, totalAlerts := totalAlerts,
    uptime := "0d 0h 0m", signalStrength := 0, extra := [] }

/-- A sequence of values in which no value is below the one before it. -/
def NonDecreasing : List Int → Prop
  | [] => True
  | [_] => True
  | a :: b :: vs => a ≤ b ∧ NonDecreasing (b :: vs)

instance decNonDecreasing : (vs : List Int) → Decidable (NonDecreasing vs)
  | [] => isTrue trivial
  | [_] => isTrue trivial
  | _ :: b :: vs => @instDecidableAnd _ _ _ (decNonDecreasing (b :: vs))

/-- The maximum value of the non-empty sequence `v :: vs`. -/
def maxSeen (v : Int) (vs : List Int) : Int :=
  vs.foldl max v

/-- The entry that `logReading` builds for a reading (lines 54-57). -/
def logEntry (now : String) (r : Reading) : JsObject :=
  JsObject.spread [("timestamp", JsVal.str now)] r.toObject

/-- Number of notifications in a trace: each call of `sendNotification`
prints its title line once, and nothing else prints it. -/
def notifications (t : List Effect) : Nat :=
  t.count (Effect.print Line.alertTitle)

/-- Whether an effect is a call of `fs.writeFileSync`. -/
def Effect.isWrite : Effect → Bool
  | Effect.writeFile _ _ _ => true
  | _ => false

/-- Number of calls of `saveLog` in a trace: each call makes one call of
`fs.writeFileSync`, and nothing else writes. -/
def saveLogCalls (t : List Effect) : Nat :=
  t.countP Effect.isWrite

/-- Apply `logReading` to each reading in turn, each with its time stamp and
the outcome of the write it would make. -/
def logAll (stringify : List JsObject → String) (xs : List (String × WriteOutcome × Reading))
    (s : State) : State :=
  xs.foldl (fun s x => logReading stringify x.1 x.2.1 (some x.2.2) s) s

/-- The entries of the readings fetched by a sequence of ticks, in order. -/
def fetchedEntries (is : List TickInput) : List JsObject :=
  is.filterMap (fun i =>
    match i.fetch with
    | FetchOutcome.success r => some (logEntry i.now r)
    | FetchOutcome.failure _ _ => none)

/-- A serializer for concrete runs: the entries one per line, each as its
properties in order. -/
def sampleStringify (logData : List JsObject) : String :=
  String.intercalate "\n" (logData.map (fun e =>
    String.intercalate ", " (e.map (fun p =>
      p.1 ++ ": " ++
        match p.2 with
        | JsVal.null => "null"
        | JsVal.bool b => toString b
        | JsVal.num n => toString n
        | JsVal.str t => t))))

/-- A tick whose fetch succeeds with the given `totalAlerts`. -/
def TickInput.ofAlerts (totalAlerts : Int) : TickInput :=
  { fetch := FetchOutcome.success (Reading.ofAlerts totalAlerts)
    now := "2024-01-01T00:00:00.000Z"
    localTime := "1/1/2024, 12:00:00 AM"
    write := WriteOutcome.ok }

/-- A tick whose fetch times out. -/
def TickInput.timedOut : TickInput :=
  { fetch := FetchOutcome.failure (some "ECONNABORTED") "timeout of 5000ms exceeded"
    now := "2024-01-01T00:00:00.000Z"
    localTime := "1/1/2024, 12:00:00 AM"
    write := WriteOutcome.ok }

/-- The state in which a tick whose fetch succeeded leaves `logReading`. -/
def logged (stringify : List JsObject → String) (i : TickInput) (r : Reading) (s : State) :
    State :=
  logReading stringify i.now i.write (some r)
    (displayStatus (some r) (fetchStatus (FetchOutcome.success r) s).1)

/-- A buffer of one entry and no log file, as after one call of `logReading`
on a fresh monitor. -/
def oneEntry : State :=
  logAll sampleStringify
    [("2024-01-01T00:00:00.000Z", WriteOutcome.ok, Reading.ofAlerts 0)]
    (State.init ARDUINO_IP none)

/-- The statement `fs.writeFileSync(LOG_FILE, text)` inside the `try` block of
`saveLog` (line 72): it returns, or it throws the message of the error; either
way the call is recorded and the file holds what the call left. -/
def writeFileSync (text : String) (w : WriteOutcome) (s : State) :
    Except (String × State) State :=
  match w with
  | WriteOutcome.ok =>
    Except.ok { s.emit (Effect.writeFile LOG_FILE text true) with file := some text }
  | WriteOutcome.error message left =>
    Except.error
      (message, { s.emit (Effect.writeFile LOG_FILE text false) with file := left })

/-- Whether an effect is the status line of `displayStatus`. -/
def Effect.isStatus : Effect → Bool
  | Effect.print (Line.status _ _ _ _ _) => true
  | _ => false

/-- Number of readings displayed in a trace. -/
def statusLines (t : List Effect) : Nat :=
  t.countP Effect.isStatus

/-- A monitor after five fetches in a row have timed out. -/
def fiveFailures : State :=
  fetchAll (List.replicate 5 TickInput.timedOut.fetch) (State.init ARDUINO_IP none)

/-- The line that `fetchStatus` prints for an error (lines 36-42). -/
def fetchWarning (code : Option String) (message : String) : Line :=
  if code = some "ECONNABORTED" then Line.timeout
  else if code = some "ECONNREFUSED" then Line.refused
  else Line.fetchError message

/-- The three lines that `checkHealth` prints when it returns false (lines
137-139). -/
def healthWarnings (consecutiveFailures : Nat) : List Effect :=
  [Effect.print (Line.healthWarning consecutiveFailures), Effect.print Line.healthOffline,
    Effect.print Line.healthAdvice]

/-! ## Failure counting -/

theorem fetchStatus_consecutiveFailures (o : FetchOutcome) (s : State) :
    (fetchStatus o s).1.monitor.consecutiveFailures =
      if o.isFailure then s.monitor.consecutiveFailures + 1 else 0 := by
  cases o with
  | success data => rfl
  | failure code message =>
    simp only [fetchStatus, FetchOutcome.isFailure, State.log, State.emit]
    split_ifs <;> rfl

theorem fetchAll_append (os : List FetchOutcome) (o : FetchOutcome) (s : State) :
    fetchAll (os ++ [o]) s = (fetchStatus o (fetchAll os s)).1 := by
  simp [fetchAll, List.foldl_append]

theorem trailingFailures_append (os : List FetchOutcome) (o : FetchOutcome) :
    trailingFailures (os ++ [o]) = if o.isFailure then trailingFailures os + 1 else 0 := by
  unfold trailingFailures
  rw [List.reverse_append, List.reverse_singleton, List.singleton_append, List.takeWhile_cons]
  split_ifs <;> simp

/-- C1: for every finite sequence of fetch outcomes applied by `fetchStatus`
to a freshly constructed monitor, `consecutiveFailures` after the sequence is
the length of the trailing run of failures; a single call sets the counter to
0 on success and adds exactly 1 on failure. -/
theorem C1_consecutiveFailures_trailing_run :
    (∀ (arduinoIp : String) (file : Option String) (os : List FetchOutcome),
      (fetchAll os (State.init arduinoIp file)).monitor.consecutiveFailures =
        trailingFailures os) ∧
    (∀ (s : State) (data : Reading),
      (fetchStatus (FetchOutcome.success data) s).1.monitor.consecutiveFailures = 0) ∧
    (∀ (s : State) (code : Option String) (message : String),
      (fetchStatus (FetchOutcome.failure code message) s).1.monitor.consecutiveFailures =
        s.monitor.consecutiveFailures + 1) := by
  refine ⟨?_, ?_, ?_⟩
  · intro arduinoIp file os
    induction os using List.reverseRecOn with
    | nil => rfl
    | append_singleton os o ih =>
      rw [fetchAll_append, fetchStatus_consecutiveFailures, trailingFailures_append, ih]
  · intro s data
    rw [fetchStatus_consecutiveFailures]; rfl
  · intro s code message
    rw [fetchStatus_consecutiveFailures]; rfl

/-! ## Alert edges -/

theorem foldl_max_le (vs : List Int) (a : Int) : a ≤ vs.foldl max a := by
  induction vs generalizing a with
  | nil => exact le_refl a
  | cons v vs ih => exact le_trans (le_max_left a v) (ih (max a v))

theorem foldl_max_lt_iff (vs : List Int) (a v : Int) :
    vs.foldl max a < v ↔ a < v ∧ ∀ p ∈ vs, p < v := by
  induction vs generalizing a with
  | nil => simp
  | cons w vs ih =>
    rw [List.foldl_cons, ih, max_lt_iff]
    simp only [List.mem_cons, forall_eq_or_imp]
    tauto

theorem checkNewAlert_some (r : Reading) (s : State) :
    checkNewAlert (some r) s =
      if r.totalAlerts > s.monitor.lastAlertCount then
        ({ s with monitor := { s.monitor with lastAlertCount := r.totalAlerts } }, true)
      else (s, false) := rfl

theorem checkNewAlert_lastAlertCount (r : Reading) (s : State) :
    (checkNewAlert (some r) s).1.monitor.lastAlertCount =
      max s.monitor.lastAlertCount r.totalAlerts := by
  rw [checkNewAlert_some]
  split_ifs with h
  · exact (max_eq_right (le_of_lt h)).symm
  · exact (max_eq_left (not_lt.mp h)).symm

theorem checkNewAlert_returns (r : Reading) (s : State) :
    (checkNewAlert (some r) s).2 = true ↔ r.totalAlerts > s.monitor.lastAlertCount := by
  rw [checkNewAlert_some]
  split_ifs with h <;> simp [h]

theorem feedAlerts_append (pre : List Reading) (r : Reading) (s : State) :
    feedAlerts (pre ++ [r]) s =
      ((checkNewAlert (some r) (feedAlerts pre s).1).1,
        (feedAlerts pre s).2 ++ [(checkNewAlert (some r) (feedAlerts pre s).1).2]) := by
  induction pre generalizing s with
  | nil => simp [feedAlerts]
  | cons p pre ih => simp [feedAlerts, ih]

theorem feedAlerts_lastAlertCount (rs : List Reading) (s : State) :
    (feedAlerts rs s).1.monitor.lastAlertCount =
      (rs.map Reading.totalAlerts).foldl max s.monitor.lastAlertCount := by
  induction rs generalizing s with
  | nil => rfl
  | cons r rs ih =>
    simp only [feedAlerts, List.map_cons, List.foldl_cons]
    rw [ih, checkNewAlert_lastAlertCount]

theorem nonDecreasing_tail (a : Int) (vs : List Int) (h : NonDecreasing (a :: vs)) :
    NonDecreasing vs := by
  cases vs with
  | nil => trivial
  | cons b vs => exact h.2

theorem nonDecreasing_le_last (vs : List Int) (l : Int) (h : NonDecreasing (vs ++ [l])) :
    ∀ p ∈ vs, p ≤ l := by
  induction vs with
  | nil => intro p hp; simp at hp
  | cons a vs ih =>
    have ht : NonDecreasing (vs ++ [l]) := nonDecreasing_tail a _ h
    intro p hp
    rcases List.mem_cons.mp hp with rfl | hmem
    · cases vs with
      | nil => exact h.1
      | cons b vs => exact le_trans h.1 (ih ht b (List.mem_cons_self b vs))
    · exact ih ht p hmem

theorem nonDecreasing_init (vs : List Int) (l : Int) (h : NonDecreasing (vs ++ [l])) :
    NonDecreasing vs := by
  induction vs with
  | nil => trivial
  | cons a vs ih =>
    cases vs with
    | nil => trivial
    | cons b vs => exact ⟨h.1, ih h.2⟩

theorem foldl_max_comm (vs : List Int) (a b : Int) :
    vs.foldl max (max a b) = max a (vs.foldl max b) := by
  induction vs generalizing b with
  | nil => rfl
  | cons v vs ih => rw [List.foldl_cons, List.foldl_cons, max_assoc, ih]

/-- C2 (as stated, refuted): the one-value sequence -1 is non-decreasing, yet
after the call `lastAlertCount` is 0, not the maximum value seen, -1. -/
theorem C2_counterexample :
    NonDecreasing ([Reading.ofAlerts (-1)].map Reading.totalAlerts) ∧
    (feedAlerts [Reading.ofAlerts (-1)] (State.init ARDUINO_IP none)).1.monitor.lastAlertCount
      ≠ maxSeen (-1) [] := by
  decide

/-- C2 (amended): for every non-decreasing sequence of `totalAlerts` values
fed one by one to `checkNewAlert` on a freshly constructed monitor, the call
at each position returns true exactly when the value is strictly greater than
the stored count, which is when it is positive and strictly greater than the
previous value; after the call `lastAlertCount` is the maximum of 0 and the
values seen so far; for 0,0,1,1,2 the edges are at positions 3 and 5 only. -/
theorem C2_edges_nondecreasing (arduinoIp : String) (file : Option String)
    (pre : List Reading) (r : Reading)
    (h : NonDecreasing ((pre ++ [r]).map Reading.totalAlerts)) :
    (feedAlerts (pre ++ [r]) (State.init arduinoIp file)).2 =
      (feedAlerts pre (State.init arduinoIp file)).2 ++
        [decide (r.totalAlerts >
          (feedAlerts pre (State.init arduinoIp file)).1.monitor.lastAlertCount)] ∧
    (r.totalAlerts > (feedAlerts pre (State.init arduinoIp file)).1.monitor.lastAlertCount ↔
      0 < r.totalAlerts ∧ ∀ p ∈ pre.getLast?, p.totalAlerts < r.totalAlerts) ∧
    (feedAlerts (pre ++ [r]) (State.init arduinoIp file)).1.monitor.lastAlertCount =
      max 0 (maxSeen r.totalAlerts (pre.map Reading.totalAlerts)) ∧
    (feedAlerts ([0, 0, 1, 1, 2].map Reading.ofAlerts) (State.init arduinoIp file)).2 =
      [false, false, true, false, true] := by
  refine ⟨?_, ?_, ?_, ?_⟩
  · rw [feedAlerts_append]
    rw [checkNewAlert_some]
    split_ifs with hlt <;> simp [hlt]
  · rw [feedAlerts_lastAlertCount, gt_iff_lt, foldl_max_lt_iff]
    have h' : NonDecreasing (pre.map Reading.totalAlerts ++ [r.totalAlerts]) := by
      simpa using h
    constructor
    · rintro ⟨h0, hall⟩
      refine ⟨h0, ?_⟩
      intro p hp
      exact hall _ (List.mem_map_of_mem _ (List.mem_of_mem_getLast? hp))
    · rintro ⟨h0, hlast⟩
      refine ⟨h0, ?_⟩
      intro v hv
      obtain ⟨q, hq, rfl⟩ := List.mem_map.mp hv
      rcases List.eq_nil_or_concat pre with hnil | ⟨init, l, hpre⟩
      · rw [hnil] at hq; simp at hq
      · rw [List.concat_eq_append] at hpre
        have hl : l.totalAlerts < r.totalAlerts := hlast l (by simp [hpre])
        have hql : q.totalAlerts ≤ l.totalAlerts := by
          rw [hpre] at hq
          rcases List.mem_append.mp hq with hqi | hql
          · have hNd := nonDecreasing_init _ _ h'
            rw [hpre, List.map_append] at hNd
            exact nonDecreasing_le_last _ _ hNd _ (List.mem_map_of_mem _ hqi)
          · rw [List.mem_singleton.mp hql]
        exact lt_of_le_of_lt hql hl
  · rw [feedAlerts_lastAlertCount, List.map_append, List.foldl_append]
    simp only [List.map_cons, List.map_nil, List.foldl_cons, List.foldl_nil, maxSeen]
    calc max (List.foldl max 0 (List.map Reading.totalAlerts pre)) r.totalAlerts
        = max r.totalAlerts (List.foldl max 0 (List.map Reading.totalAlerts pre)) :=
          max_comm _ _
      _ = List.foldl max (max r.totalAlerts 0) (List.map Reading.totalAlerts pre) :=
          (foldl_max_comm _ _ _).symm
      _ = List.foldl max (max 0 r.totalAlerts) (List.map Reading.totalAlerts pre) := by
          rw [max_comm]
      _ = max 0 (List.foldl max r.totalAlerts (List.map Reading.totalAlerts pre)) :=
          foldl_max_comm _ _ _
  · rfl

/-- C2 (amended), at the sequence 0, 0, 1. -/
theorem C2_edges_nondecreasing_witness :
    NonDecreasing (([Reading.ofAlerts 0, Reading.ofAlerts 0] ++ [Reading.ofAlerts 1]).map
      Reading.totalAlerts) ∧
    (feedAlerts ([Reading.ofAlerts 0, Reading.ofAlerts 0] ++ [Reading.ofAlerts 1])
      (State.init ARDUINO_IP none)).1.monitor.lastAlertCount =
        max 0 (maxSeen 1 [0, 0]) :=
  ⟨by decide,
    (C2_edges_nondecreasing ARDUINO_IP none [Reading.ofAlerts 0, Reading.ofAlerts 0]
      (Reading.ofAlerts 1) (by decide)).2.2.1⟩

/-- C4: for every stored `lastAlertCount` and every reading, `checkNewAlert`
returns true if and only if the reading's `totalAlerts` is strictly greater
than `lastAlertCount`; when it returns true `lastAlertCount` becomes
`totalAlerts` and nothing else changes, and when it returns false (also when
`totalAlerts` is below `lastAlertCount`) the state is unchanged. -/
theorem C4_checkNewAlert_contract (r : Reading) (s : State) :
    ((checkNewAlert (some r) s).2 = true ↔ r.totalAlerts > s.monitor.lastAlertCount) ∧
    ((checkNewAlert (some r) s).2 = true →
      (checkNewAlert (some r) s).1 =
        { s with monitor := { s.monitor with lastAlertCount := r.totalAlerts } }) ∧
    ((checkNewAlert (some r) s).2 = false → (checkNewAlert (some r) s).1 = s) := by
  rw [checkNewAlert_some]
  split_ifs with h <;> simp [h]

/-! ## The poll tick -/

theorem tick_failure (stringify : List JsObject → String) (i : TickInput) (s : State)
    (code : Option String) (message : String) (h : i.fetch = FetchOutcome.failure code message) :
    tick stringify i s = (checkHealth (fetchStatus i.fetch s).1).1 := by
  simp only [tick, h, fetchStatus]
  split_ifs <;>
    simp [checkHealth, displayStatus, logReading, checkNewAlert]

theorem saveLog_monitor (stringify : List JsObject → String) (w : WriteOutcome) (s : State) :
    (saveLog stringify w s).monitor = s.monitor := by
  cases w <;> rfl

theorem logReading_monitor (stringify : List JsObject → String) (now : String)
    (w : WriteOutcome) (r : Reading) (s : State) :
    (logReading stringify now w (some r) s).monitor =
      { s.monitor with logData := s.monitor.logData ++ [logEntry now r] } := by
  simp only [logReading]
  split_ifs
  · rw [saveLog_monitor]; rfl
  · rfl

theorem displayStatus_monitor (data : Option Reading) (s : State) :
    (displayStatus data s).monitor = s.monitor := by
  cases data <;> rfl

theorem sendNotification_monitor (localTime : String) (r : Reading) (s : State) :
    (sendNotification localTime r s).monitor = s.monitor := rfl

theorem checkHealth_monitor (s : State) : (checkHealth s).1.monitor = s.monitor := by
  unfold checkHealth
  split_ifs <;> rfl

theorem checkHealth_returns (s : State) :
    (checkHealth s).2 = true ↔ s.monitor.consecutiveFailures < s.monitor.maxFailures := by
  unfold checkHealth
  split_ifs with h
  · simp only [Bool.false_eq_true, false_iff, not_lt]; exact h
  · simp only [true_iff]; exact not_le.mp h

theorem fetchStatus_monitor (o : FetchOutcome) (s : State) :
    (fetchStatus o s).1.monitor =
      { s.monitor with consecutiveFailures :=
          if o.isFailure then s.monitor.consecutiveFailures + 1 else 0 } := by
  cases o with
  | success data => rfl
  | failure code message =>
    simp only [fetchStatus, FetchOutcome.isFailure, State.log, State.emit]
    split_ifs <;> rfl

theorem tick_eq (stringify : List JsObject → String) (i : TickInput) (s : State) :
    tick stringify i s =
      if (checkHealth (fetchStatus i.fetch s).1).2 = true then
        if (checkNewAlert (fetchStatus i.fetch s).2
            (logReading stringify i.now i.write (fetchStatus i.fetch s).2
              (displayStatus (fetchStatus i.fetch s).2
                (checkHealth (fetchStatus i.fetch s).1).1))).2 = true then
          match (fetchStatus i.fetch s).2 with
          | some r => sendNotification i.localTime r
              (checkNewAlert (fetchStatus i.fetch s).2
                (logReading stringify i.now i.write (fetchStatus i.fetch s).2
                  (displayStatus (fetchStatus i.fetch s).2
                    (checkHealth (fetchStatus i.fetch s).1).1))).1
          | none =>
              (checkNewAlert (fetchStatus i.fetch s).2
                (logReading stringify i.now i.write (fetchStatus i.fetch s).2
                  (displayStatus (fetchStatus i.fetch s).2
                    (checkHealth (fetchStatus i.fetch s).1).1))).1
        else
          (checkNewAlert (fetchStatus i.fetch s).2
            (logReading stringify i.now i.write (fetchStatus i.fetch s).2
              (displayStatus (fetchStatus i.fetch s).2
                (checkHealth (fetchStatus i.fetch s).1).1))).1
      else (checkHealth (fetchStatus i.fetch s).1).1 := by
  unfold tick
  cases hh : (checkHealth (fetchStatus i.fetch s).1).2 <;> simp [hh]

theorem fetchStatus_success (r : Reading) (s : State) :
    fetchStatus (FetchOutcome.success r) s =
      ({ s.emit (Effect.httpGet s.monitor.apiUrl 5000) with
          monitor := { s.monitor with consecutiveFailures := 0 } }, some r) := rfl

theorem checkHealth_of_lt (s : State)
    (h : s.monitor.consecutiveFailures < s.monitor.maxFailures) : checkHealth s = (s, true) := by
  unfold checkHealth
  rw [if_neg (not_le.mpr h)]

theorem checkHealth_of_ge (s : State)
    (h : s.monitor.maxFailures ≤ s.monitor.consecutiveFailures) :
    checkHealth s =
      ((((s.log (Line.healthWarning s.monitor.consecutiveFailures)).log Line.healthOffline).log
        Line.healthAdvice), false) := by
  unfold checkHealth
  rw [if_pos h]

theorem logged_monitor (stringify : List JsObject → String) (i : TickInput) (r : Reading)
    (s : State) :
    (logged stringify i r s).monitor =
      { s.monitor with
          consecutiveFailures := 0
          logData := s.monitor.logData ++ [logEntry i.now r] } := by
  unfold logged
  rw [logReading_monitor, displayStatus_monitor, fetchStatus_success]

theorem tick_success (stringify : List JsObject → String) (i : TickInput) (s : State)
    (r : Reading) (h : i.fetch = FetchOutcome.success r) (hmax : 0 < s.monitor.maxFailures) :
    tick stringify i s =
      if r.totalAlerts > s.monitor.lastAlertCount then
        sendNotification i.localTime r
          { logged stringify i r s with
              monitor := { (logged stringify i r s).monitor with lastAlertCount := r.totalAlerts } }
      else logged stringify i r s := by
  have hhealthy : checkHealth (fetchStatus (FetchOutcome.success r) s).1 =
      ((fetchStatus (FetchOutcome.success r) s).1, true) :=
    checkHealth_of_lt _ hmax
  have hlast : (logged stringify i r s).monitor.lastAlertCount = s.monitor.lastAlertCount := by
    rw [logged_monitor]
  rw [tick_eq, h, hhealthy]
  have hsnd : (fetchStatus (FetchOutcome.success r) s).2 = some r := rfl
  simp only [hsnd, if_true]
  change (if (checkNewAlert (some r) (logged stringify i r s)).2 = true then
      sendNotification i.localTime r (checkNewAlert (some r) (logged stringify i r s)).1
    else (checkNewAlert (some r) (logged stringify i r s)).1) = _
  rw [checkNewAlert_some, hlast]
  by_cases hgt : r.totalAlerts > s.monitor.lastAlertCount
  · simp only [if_pos hgt, if_true]
  · simp only [if_neg hgt, Bool.false_eq_true, if_false]

theorem tick_unhealthy (stringify : List JsObject → String) (i : TickInput) (s : State)
    (h : (checkHealth (fetchStatus i.fetch s).1).2 = false) :
    tick stringify i s = (checkHealth (fetchStatus i.fetch s).1).1 := by
  rw [tick_eq, h]
  simp

theorem tick_monitor_of_not_logged (stringify : List JsObject → String) (i : TickInput)
    (s : State)
    (h : i.fetch.isFailure = true ∨ s.monitor.maxFailures = 0) :
    (tick stringify i s).monitor =
      { s.monitor with consecutiveFailures :=
          if i.fetch.isFailure then s.monitor.consecutiveFailures + 1 else 0 } := by
  rcases h with h | h
  · cases hf : i.fetch with
    | success r => rw [hf] at h; cases h
    | failure code message =>
      rw [tick_failure stringify i s code message hf, checkHealth_monitor, fetchStatus_monitor,
        hf]
  · have hun : (checkHealth (fetchStatus i.fetch s).1).2 = false := by
      cases hc : (checkHealth (fetchStatus i.fetch s).1).2 with
      | false => rfl
      | true =>
        have := (checkHealth_returns _).mp hc
        rw [fetchStatus_monitor] at this
        simp only [h] at this
        exact absurd this (Nat.not_lt_zero _)
    rw [tick_unhealthy stringify i s hun, checkHealth_monitor, fetchStatus_monitor]

theorem tick_success_monitor (stringify : List JsObject → String) (i : TickInput) (s : State)
    (r : Reading) (h : i.fetch = FetchOutcome.success r) (hmax : 0 < s.monitor.maxFailures) :
    (tick stringify i s).monitor =
      { s.monitor with
          consecutiveFailures := 0
          logData := s.monitor.logData ++ [logEntry i.now r]
          lastAlertCount := max s.monitor.lastAlertCount r.totalAlerts } := by
  rw [tick_success stringify i s r h hmax]
  split_ifs with hgt
  · rw [sendNotification_monitor]
    simp only [logged_monitor]
    rw [max_eq_right (le_of_lt hgt)]
  · rw [logged_monitor, max_eq_left (not_lt.mp hgt)]

theorem tick_maxFailures (stringify : List JsObject → String) (i : TickInput) (s : State) :
    (tick stringify i s).monitor.maxFailures = s.monitor.maxFailures := by
  by_cases hmax : 0 < s.monitor.maxFailures
  · cases hf : i.fetch with
    | success r => rw [tick_success_monitor stringify i s r hf hmax]
    | failure code message =>
      rw [tick_monitor_of_not_logged stringify i s (Or.inl (by rw [hf]; rfl))]
  · rw [tick_monitor_of_not_logged stringify i s (Or.inr (Nat.eq_zero_of_not_pos hmax))]

theorem runTicks_append (stringify : List JsObject → String) (is : List TickInput)
    (i : TickInput) (s : State) :
    runTicks stringify (is ++ [i]) s = tick stringify i (runTicks stringify is s) := by
  simp [runTicks, List.foldl_append]

theorem runTicks_cons (stringify : List JsObject → String) (is : List TickInput)
    (i : TickInput) (s : State) :
    runTicks stringify (i :: is) s = runTicks stringify is (tick stringify i s) := rfl

theorem fetchAll_maxFailures (os : List FetchOutcome) (s : State) :
    (fetchAll os s).monitor.maxFailures = s.monitor.maxFailures := by
  induction os using List.reverseRecOn with
  | nil => rfl
  | append_singleton os o ih => rw [fetchAll_append, fetchStatus_monitor]; exact ih

theorem fetchAll_init_consecutiveFailures (arduinoIp : String) (file : Option String)
    (os : List FetchOutcome) :
    (fetchAll os (State.init arduinoIp file)).monitor.consecutiveFailures =
      trailingFailures os := by
  induction os using List.reverseRecOn with
  | nil => rfl
  | append_singleton os o ih =>
    rw [fetchAll_append, fetchStatus_consecutiveFailures, trailingFailures_append, ih]

/-- C5: `checkHealth` returns true exactly when `consecutiveFailures` is below
`maxFailures`, and `maxFailures` is 5 for every constructed monitor; so, from
a fresh monitor, after any fetches `checkHealth` is true exactly when the
trailing run of failures is shorter than 5: it is false after five failed
fetches in a row, and true after any later successful fetch. -/
theorem C5_checkHealth_threshold :
    (∀ s : State,
      (checkHealth s).2 = true ↔ s.monitor.consecutiveFailures < s.monitor.maxFailures) ∧
    (∀ arduinoIp : String, (WaterSensorMonitor.new arduinoIp).maxFailures = 5) ∧
    (∀ (arduinoIp : String) (file : Option String) (os : List FetchOutcome),
      (fetchAll os (State.init arduinoIp file)).monitor.maxFailures = 5 ∧
      ((checkHealth (fetchAll os (State.init arduinoIp file))).2 = true ↔
        trailingFailures os < 5)) ∧
    (∀ (arduinoIp : String) (file : Option String) (c1 c2 c3 c4 c5 : Option String)
        (m1 m2 m3 m4 m5 : String),
      (checkHealth (fetchAll
        [FetchOutcome.failure c1 m1, FetchOutcome.failure c2 m2, FetchOutcome.failure c3 m3,
          FetchOutcome.failure c4 m4, FetchOutcome.failure c5 m5]
        (State.init arduinoIp file))).2 = false) ∧
    (∀ (arduinoIp : String) (file : Option String) (os : List FetchOutcome) (r : Reading),
      (checkHealth (fetchAll (os ++ [FetchOutcome.success r])
        (State.init arduinoIp file))).2 = true) := by
  have key : ∀ (arduinoIp : String) (file : Option String) (os : List FetchOutcome),
      ((checkHealth (fetchAll os (State.init arduinoIp file))).2 = true ↔
        trailingFailures os < 5) := by
    intro arduinoIp file os
    rw [checkHealth_returns, fetchAll_maxFailures, fetchAll_init_consecutiveFailures]
    rfl
  refine ⟨checkHealth_returns, fun _ => rfl, ?_, ?_, ?_⟩
  · intro arduinoIp file os
    exact ⟨by rw [fetchAll_maxFailures]; rfl, key arduinoIp file os⟩
  · intro arduinoIp file c1 c2 c3 c4 c5 m1 m2 m3 m4 m5
    rw [Bool.eq_false_iff, Ne, key]
    simp [trailingFailures, FetchOutcome.isFailure]
  · intro arduinoIp file os r
    rw [key, trailingFailures_append]
    simp [FetchOutcome.isFailure]

/-! ## Buffered logging -/

theorem saveLogCalls_emit (s : State) (e : Effect) :
    saveLogCalls (s.emit e).trace = saveLogCalls s.trace + if e.isWrite then 1 else 0 := by
  simp only [saveLogCalls, State.emit, List.countP_append, List.countP_cons, List.countP_nil,
    zero_add]

theorem saveLog_saveLogCalls (stringify : List JsObject → String) (w : WriteOutcome)
    (s : State) :
    saveLogCalls (saveLog stringify w s).trace = saveLogCalls s.trace + 1 := by
  cases w with
  | ok =>
    show saveLogCalls (s.emit _).trace = _
    rw [saveLogCalls_emit]; rfl
  | error message left =>
    show saveLogCalls (State.emit (State.mk _ _ (s.emit _).trace) _).trace = _
    rw [saveLogCalls_emit, saveLogCalls_emit]; rfl

theorem logReading_saveLogCalls (stringify : List JsObject → String) (now : String)
    (w : WriteOutcome) (r : Reading) (s : State) :
    saveLogCalls (logReading stringify now w (some r) s).trace =
      saveLogCalls s.trace + if (s.monitor.logData.length + 1) % 10 = 0 then 1 else 0 := by
  simp only [logReading, List.length_append, List.length_singleton]
  split_ifs with h
  · rw [saveLog_saveLogCalls]
  · rfl

theorem logAll_append (stringify : List JsObject → String)
    (xs : List (String × WriteOutcome × Reading)) (x : String × WriteOutcome × Reading)
    (s : State) :
    logAll stringify (xs ++ [x]) s =
      logReading stringify x.1 x.2.1 (some x.2.2) (logAll stringify xs s) := by
  simp [logAll, List.foldl_append]

theorem logAll_logData (stringify : List JsObject → String)
    (xs : List (String × WriteOutcome × Reading)) (s : State) :
    (logAll stringify xs s).monitor.logData =
      s.monitor.logData ++ xs.map (fun x => logEntry x.1 x.2.2) := by
  induction xs using List.reverseRecOn with
  | nil => simp [logAll]
  | append_singleton xs x ih =>
    rw [logAll_append, logReading_monitor]
    simp [ih]

/-- C6: for every number B of readings appended one at a time with
`logReading` to a freshly constructed monitor, `logReading` calls `saveLog`
exactly floor(B/10) times; a call of `logReading` calls `saveLog` exactly when
the length of the buffer after the push is a multiple of 10. -/
theorem C6_automatic_flush_count (stringify : List JsObject → String) :
    (∀ (arduinoIp : String) (file : Option String)
        (xs : List (String × WriteOutcome × Reading)),
      saveLogCalls (logAll stringify xs (State.init arduinoIp file)).trace = xs.length / 10) ∧
    (∀ (now : String) (w : WriteOutcome) (r : Reading) (s : State),
      saveLogCalls (logReading stringify now w (some r) s).trace =
        saveLogCalls s.trace +
          if (logReading stringify now w (some r) s).monitor.logData.length % 10 = 0 then 1
          else 0) := by
  constructor
  · intro arduinoIp file xs
    induction xs using List.reverseRecOn with
    | nil => rfl
    | append_singleton xs x ih =>
      rw [logAll_append, logReading_saveLogCalls, ih, logAll_logData]
      simp only [State.init, WaterSensorMonitor.new, List.nil_append, List.length_map,
        List.length_append, List.length_singleton]
      rw [Nat.succ_div]
      simp only [Nat.dvd_iff_mod_eq_zero]
  · intro now w r s
    rw [logReading_saveLogCalls, logReading_monitor]
    simp only [List.length_append, List.length_singleton]

/-! ## Notifications -/

theorem notifications_emit (s : State) (e : Effect) :
    notifications (s.emit e).trace =
      notifications s.trace + if e = Effect.print Line.alertTitle then 1 else 0 := by
  simp only [notifications, State.emit, List.count_append, List.count_cons, List.count_nil,
    zero_add, beq_iff_eq]

theorem notifications_log (s : State) (l : Line) :
    notifications (s.log l).trace =
      notifications s.trace + if l = Line.alertTitle then 1 else 0 := by
  rw [State.log, notifications_emit]
  simp only [Effect.print.injEq]

theorem fetchStatus_notifications (o : FetchOutcome) (s : State) :
    notifications (fetchStatus o s).1.trace = notifications s.trace := by
  cases o with
  | success data =>
    show notifications (s.emit _).trace = _
    rw [notifications_emit]; rfl
  | failure code message =>
    simp only [fetchStatus]
    split_ifs <;>
    · rw [notifications_log]
      show notifications (s.emit _).trace + _ = _
      rw [notifications_emit]
      rfl

theorem checkHealth_notifications (s : State) :
    notifications (checkHealth s).1.trace = notifications s.trace := by
  unfold checkHealth
  split_ifs
  · simp only [notifications_log]; rfl
  · rfl

theorem displayStatus_notifications (data : Option Reading) (s : State) :
    notifications (displayStatus data s).trace = notifications s.trace := by
  cases data with
  | none => rfl
  | some r => simp only [displayStatus, notifications_log]; rfl

theorem saveLog_notifications (stringify : List JsObject → String) (w : WriteOutcome)
    (s : State) :
    notifications (saveLog stringify w s).trace = notifications s.trace := by
  cases w with
  | ok =>
    show notifications (s.emit _).trace = _
    rw [notifications_emit]; rfl
  | error message left =>
    simp only [saveLog, notifications_log]
    show notifications (s.emit _).trace + _ = _
    rw [notifications_emit]; rfl

theorem logReading_notifications (stringify : List JsObject → String) (now : String)
    (w : WriteOutcome) (data : Option Reading) (s : State) :
    notifications (logReading stringify now w data s).trace = notifications s.trace := by
  cases data with
  | none => rfl
  | some r =>
    simp only [logReading]
    split_ifs
    · rw [saveLog_notifications]
    · rfl

theorem sendNotification_notifications (localTime : String) (r : Reading) (s : State) :
    notifications (sendNotification localTime r s).trace = notifications s.trace + 1 := by
  simp only [sendNotification, notifications_log]
  rfl

theorem logged_notifications (stringify : List JsObject → String) (i : TickInput)
    (r : Reading) (s : State) :
    notifications (logged stringify i r s).trace = notifications s.trace := by
  unfold logged
  rw [logReading_notifications, displayStatus_notifications, fetchStatus_notifications]

theorem tick_lastAlertCount_le (stringify : List JsObject → String) (i : TickInput)
    (s : State) :
    s.monitor.lastAlertCount ≤ (tick stringify i s).monitor.lastAlertCount := by
  by_cases hmax : 0 < s.monitor.maxFailures
  · cases hf : i.fetch with
    | success r =>
      rw [tick_success_monitor stringify i s r hf hmax]
      exact le_max_left _ _
    | failure code message =>
      rw [tick_monitor_of_not_logged stringify i s (Or.inl (by rw [hf]; rfl))]
  · rw [tick_monitor_of_not_logged stringify i s (Or.inr (Nat.eq_zero_of_not_pos hmax))]

theorem runTicks_lastAlertCount_le (stringify : List JsObject → String) (is : List TickInput)
    (s : State) :
    s.monitor.lastAlertCount ≤ (runTicks stringify is s).monitor.lastAlertCount := by
  induction is generalizing s with
  | nil => exact le_refl _
  | cons i is ih =>
    rw [runTicks_cons]
    exact le_trans (tick_lastAlertCount_le stringify i s) (ih _)

theorem tick_notifications (stringify : List JsObject → String) (i : TickInput) (s : State)
    (hmax : 0 < s.monitor.maxFailures) :
    notifications (tick stringify i s).trace =
      notifications s.trace +
        match i.fetch with
        | FetchOutcome.success r => if r.totalAlerts > s.monitor.lastAlertCount then 1 else 0
        | FetchOutcome.failure _ _ => 0 := by
  cases hf : i.fetch with
  | success r =>
    rw [tick_success stringify i s r hf hmax]
    split_ifs with hgt
    · rw [sendNotification_notifications]
      show notifications (logged stringify i r s).trace + 1 = _
      rw [logged_notifications]
      simp only [if_pos hgt]
    · rw [logged_notifications]
      simp only [if_neg hgt, add_zero]
  | failure code message =>
    rw [tick_failure stringify i s code message hf, checkHealth_notifications,
      fetchStatus_notifications]
    rfl

theorem banner_monitor (pollInterval : Nat) (s : State) :
    (banner pollInterval s).monitor = s.monitor := rfl

/-- C8: `lastAlertCount` never decreases across the run: for every tick,
whatever the outcome of its fetch and the `totalAlerts` fetched (also a value
below ones seen before), `lastAlertCount` after the tick is at least its value
before, so it never decreases over any sequence of ticks, and from the
constructor on it is always at least 0. -/
theorem C8_lastAlertCount_never_decreases (stringify : List JsObject → String) :
    (∀ (i : TickInput) (s : State),
      s.monitor.lastAlertCount ≤ (tick stringify i s).monitor.lastAlertCount) ∧
    (∀ (is : List TickInput) (s : State),
      s.monitor.lastAlertCount ≤ (runTicks stringify is s).monitor.lastAlertCount) ∧
    (∀ (arduinoIp : String) (file : Option String) (pollInterval : Nat)
        (is : List TickInput),
      0 ≤ (runTicks stringify is
        (banner pollInterval (State.init arduinoIp file))).monitor.lastAlertCount) := by
  refine ⟨tick_lastAlertCount_le stringify, runTicks_lastAlertCount_le stringify, ?_⟩
  intro arduinoIp file pollInterval is
  exact runTicks_lastAlertCount_le stringify is (banner pollInterval (State.init arduinoIp file))

/-! ## Persistence -/

theorem runTicks_logData (stringify : List JsObject → String) (is : List TickInput)
    (s : State) (hmax : 0 < s.monitor.maxFailures) :
    (runTicks stringify is s).monitor.logData = s.monitor.logData ++ fetchedEntries is := by
  induction is generalizing s with
  | nil => simp [runTicks, fetchedEntries]
  | cons i is ih =>
    have hmax' : 0 < (tick stringify i s).monitor.maxFailures := by
      rw [tick_maxFailures]; exact hmax
    rw [runTicks_cons, ih _ hmax']
    cases hf : i.fetch with
    | success r =>
      rw [tick_success_monitor stringify i s r hf hmax]
      simp [fetchedEntries, hf]
    | failure code message =>
      rw [tick_monitor_of_not_logged stringify i s (Or.inl (by rw [hf]; rfl))]
      simp [fetchedEntries, hf]

theorem saveLog_ok_file (stringify : List JsObject → String) (s : State) :
    (saveLog stringify WriteOutcome.ok s).file = some (stringify s.monitor.logData) := rfl

/-- C9: every successful `saveLog`, whether called on demand, by `logReading`
or by the `SIGINT` handler, replaces the content of the log file with the
serialization of the entire buffer, whatever the file held before and without
changing the buffer; and the buffer after a run of ticks is the entries of
the readings fetched, each once and in arrival order, so a run that ends with
a successful final `saveLog` leaves the serialization of exactly those
entries. -/
theorem C9_saveLog_rewrites_whole_buffer (stringify : List JsObject → String) :
    (∀ s : State,
      (saveLog stringify WriteOutcome.ok s).file = some (stringify s.monitor.logData) ∧
      (saveLog stringify WriteOutcome.ok s).monitor = s.monitor) ∧
    (∀ (now : String) (r : Reading) (s : State),
      (logReading stringify now WriteOutcome.ok (some r) s).file =
        if (s.monitor.logData.length + 1) % 10 = 0 then
          some (stringify (s.monitor.logData ++ [logEntry now r]))
        else s.file) ∧
    (∀ s : State,
      (sigint stringify WriteOutcome.ok s).file = some (stringify s.monitor.logData)) ∧
    (∀ (arduinoIp : String) (file : Option String) (pollInterval : Nat)
        (is : List TickInput),
      (runTicks stringify is
        (banner pollInterval (State.init arduinoIp file))).monitor.logData =
          fetchedEntries is ∧
      (run stringify pollInterval is WriteOutcome.ok (State.init arduinoIp file)).file =
        some (stringify (fetchedEntries is))) := by
  refine ⟨fun s => ⟨rfl, rfl⟩, ?_, fun s => rfl, ?_⟩
  · intro now r s
    simp only [logReading, List.length_append, List.length_singleton]
    split_ifs <;> rfl
  · intro arduinoIp file pollInterval is
    have hlog := runTicks_logData stringify is (banner pollInterval (State.init arduinoIp file))
      (show 0 < 5 by decide)
    have hnil : (banner pollInterval (State.init arduinoIp file)).monitor.logData = [] := rfl
    rw [hnil, List.nil_append] at hlog
    refine ⟨hlog, ?_⟩
    show (saveLog stringify WriteOutcome.ok _).file = _
    rw [saveLog_ok_file, hlog]

/-- C10 (as stated, refuted): with one entry in the buffer and no log file, a
first `saveLog` whose write fails and leaves no file, followed at once by a
second `saveLog` whose write succeeds, leaves different persisted content
after the second call than after the first. -/
theorem C10_counterexample :
    (saveLog sampleStringify WriteOutcome.ok
      (saveLog sampleStringify (WriteOutcome.error "EACCES: permission denied" none)
        oneEntry)).file ≠
    (saveLog sampleStringify (WriteOutcome.error "EACCES: permission denied" none)
      oneEntry).file := by
  decide

/-- C10 (amended): for every buffer content, calling `saveLog` twice with no
`logReading` in between, both writes succeeding, leaves the persisted content
after the second call identical to that after the first; whatever the first
write did, a second call whose write succeeds leaves the serialization of the
buffer. -/
theorem C10_saveLog_idempotent_on_success (stringify : List JsObject → String) (s : State) :
    (saveLog stringify WriteOutcome.ok (saveLog stringify WriteOutcome.ok s)).file =
      (saveLog stringify WriteOutcome.ok s).file ∧
    (saveLog stringify WriteOutcome.ok (saveLog stringify WriteOutcome.ok s)).monitor =
      s.monitor ∧
    (∀ w : WriteOutcome,
      (saveLog stringify WriteOutcome.ok (saveLog stringify w s)).file =
        some (stringify s.monitor.logData)) := by
  refine ⟨rfl, rfl, ?_⟩
  intro w
  rw [saveLog_ok_file, saveLog_monitor]

/-! ## Failed writes -/

theorem saveLog_eq_try_catch (stringify : List JsObject → String) (w : WriteOutcome)
    (s : State) :
    saveLog stringify w s =
      match writeFileSync (stringify s.monitor.logData) w s with
      | Except.ok s' => s'
      | Except.error (message, s') => s'.log (Line.saveError message) := by
  cases w <;> rfl

theorem saveLog_error_trace (stringify : List JsObject → String) (message : String)
    (left : Option String) (s : State) :
    (saveLog stringify (WriteOutcome.error message left) s).trace =
      s.trace ++ [Effect.writeFile LOG_FILE (stringify s.monitor.logData) false,
        Effect.print (Line.saveError message)] := by
  simp [saveLog, State.log, State.emit]

theorem tick_unhealthy_notifications (stringify : List JsObject → String) (i : TickInput)
    (s : State) (h : (checkHealth (fetchStatus i.fetch s).1).2 = false) :
    notifications (tick stringify i s).trace = notifications s.trace := by
  rw [tick_unhealthy stringify i s h, checkHealth_notifications, fetchStatus_notifications]

theorem checkHealth_false_of_maxFailures_zero (o : FetchOutcome) (s : State)
    (h : s.monitor.maxFailures = 0) : (checkHealth (fetchStatus o s).1).2 = false := by
  cases hc : (checkHealth (fetchStatus o s).1).2 with
  | false => rfl
  | true =>
    have := (checkHealth_returns _).mp hc
    rw [fetchStatus_monitor] at this
    simp only [h] at this
    exact absurd this (Nat.not_lt_zero _)

theorem tick_monitor_write_irrelevant (stringify : List JsObject → String) (i : TickInput)
    (w : WriteOutcome) (s : State) :
    (tick stringify { i with write := w } s).monitor = (tick stringify i s).monitor := by
  by_cases hmax : 0 < s.monitor.maxFailures
  · obtain ⟨fetch, now, localTime, write⟩ := i
    cases fetch with
    | success r =>
      rw [tick_success_monitor stringify _ s r rfl hmax,
        tick_success_monitor stringify _ s r rfl hmax]
    | failure code message =>
      rw [tick_monitor_of_not_logged stringify
          ⟨FetchOutcome.failure code message, now, localTime, w⟩ s (Or.inl rfl),
        tick_monitor_of_not_logged stringify
          ⟨FetchOutcome.failure code message, now, localTime, write⟩ s (Or.inl rfl)]
  · have h0 : s.monitor.maxFailures = 0 := Nat.eq_zero_of_not_pos hmax
    rw [tick_monitor_of_not_logged stringify { i with write := w } s (Or.inr h0),
      tick_monitor_of_not_logged stringify i s (Or.inr h0)]

theorem tick_notifications_write_irrelevant (stringify : List JsObject → String)
    (i : TickInput) (w : WriteOutcome) (s : State) :
    notifications (tick stringify { i with write := w } s).trace =
      notifications (tick stringify i s).trace := by
  by_cases hmax : 0 < s.monitor.maxFailures
  · rw [tick_notifications stringify { i with write := w } s hmax,
      tick_notifications stringify i s hmax]
  · have h0 : s.monitor.maxFailures = 0 := Nat.eq_zero_of_not_pos hmax
    rw [tick_unhealthy_notifications stringify { i with write := w } s
        (checkHealth_false_of_maxFailures_zero _ s h0),
      tick_unhealthy_notifications stringify i s
        (checkHealth_false_of_maxFailures_zero _ s h0)]

/-- C11: a failure to persist is reported, not fatal.  `saveLog` is the write
inside try/catch: when the write throws, `saveLog` still returns, having
printed the error, and so do `logReading` and the tick, which go on as with a
write that succeeded; the buffer is left unchanged by `saveLog` whatever the
write did, so a later `saveLog` whose write succeeds, after any further
readings, persists the whole buffer. -/
theorem C11_persist_failure_not_fatal (stringify : List JsObject → String) :
    (∀ (w : WriteOutcome) (s : State),
      saveLog stringify w s =
        match writeFileSync (stringify s.monitor.logData) w s with
        | Except.ok s' => s'
        | Except.error (message, s') => s'.log (Line.saveError message)) ∧
    (∀ (message : String) (left : Option String) (s : State),
      (saveLog stringify (WriteOutcome.error message left) s).trace =
        s.trace ++ [Effect.writeFile LOG_FILE (stringify s.monitor.logData) false,
          Effect.print (Line.saveError message)]) ∧
    (∀ (w : WriteOutcome) (s : State), (saveLog stringify w s).monitor = s.monitor) ∧
    (∀ (now : String) (w : WriteOutcome) (r : Reading) (s : State),
      (logReading stringify now w (some r) s).monitor =
        { s.monitor with logData := s.monitor.logData ++ [logEntry now r] }) ∧
    (∀ (i : TickInput) (w : WriteOutcome) (s : State),
      (tick stringify { i with write := w } s).monitor = (tick stringify i s).monitor ∧
      notifications (tick stringify { i with write := w } s).trace =
        notifications (tick stringify i s).trace) ∧
    (∀ (message : String) (left : Option String) (s : State)
        (xs : List (String × WriteOutcome × Reading)),
      (saveLog stringify WriteOutcome.ok
        (logAll stringify xs
          (saveLog stringify (WriteOutcome.error message left) s))).file =
        some (stringify (s.monitor.logData ++ xs.map (fun x => logEntry x.1 x.2.2)))) := by
  refine ⟨saveLog_eq_try_catch stringify, saveLog_error_trace stringify,
    saveLog_monitor stringify, logReading_monitor stringify, ?_, ?_⟩
  · intro i w s
    exact ⟨tick_monitor_write_irrelevant stringify i w s,
      tick_notifications_write_irrelevant stringify i w s⟩
  · intro message left s xs
    rw [saveLog_ok_file, logAll_logData, saveLog_monitor]

/-! ## Effects of the health check and of skipped ticks -/

theorem fetchStatus_failure (code : Option String) (message : String) (s : State) :
    (fetchStatus (FetchOutcome.failure code message) s).1 =
      { s with
          monitor := { s.monitor with consecutiveFailures := s.monitor.consecutiveFailures + 1 }
          trace := s.trace ++ [Effect.httpGet s.monitor.apiUrl 5000,
            Effect.print (fetchWarning code message)] } := by
  simp only [fetchStatus, fetchWarning, State.log, State.emit]
  split_ifs <;> simp

theorem checkHealth_eq (s : State) :
    (checkHealth s).1 =
      if (checkHealth s).2 = true then s
      else { s with trace := s.trace ++ healthWarnings s.monitor.consecutiveFailures } := by
  unfold checkHealth
  split_ifs <;> simp_all [State.log, State.emit, healthWarnings]

/-- C14 (as stated, refuted): after five failed fetches in a row `checkHealth`
changes the state of the outside world, which gains the three warning lines
that `checkHealth` prints. -/
theorem C14_counterexample :
    (checkHealth fiveFailures).1 ≠ fiveFailures ∧
    (checkHealth fiveFailures).1.trace = fiveFailures.trace ++ healthWarnings 5 := by
  decide

/-- C14 (amended): for every monitor state `checkHealth` leaves
`consecutiveFailures`, `lastAlertCount`, `logData` (the whole monitor) and the
log file unchanged; when it returns true it has no effect at all, and when it
returns false its only effect is to print three warning lines, the first with
the number of consecutive failures. -/
theorem C14_checkHealth_effects (s : State) :
    (checkHealth s).1.monitor = s.monitor ∧
    (checkHealth s).1.file = s.file ∧
    (checkHealth s).1 =
      (if (checkHealth s).2 = true then s
      else { s with trace := s.trace ++ healthWarnings s.monitor.consecutiveFailures }) ∧
    (checkHealth s).1.trace =
      s.trace ++
        (if (checkHealth s).2 = true then []
        else healthWarnings s.monitor.consecutiveFailures) := by
  have h := checkHealth_eq s
  refine ⟨checkHealth_monitor s, ?_, h, ?_⟩
  · rw [h]; split_ifs <;> rfl
  · rw [h]; split_ifs <;> simp

theorem statusLines_append (t u : List Effect) :
    statusLines (t ++ u) = statusLines t + statusLines u := by
  simp [statusLines, List.countP_append]

theorem saveLogCalls_append (t u : List Effect) :
    saveLogCalls (t ++ u) = saveLogCalls t + saveLogCalls u := by
  simp [saveLogCalls, List.countP_append]

theorem notifications_append (t u : List Effect) :
    notifications (t ++ u) = notifications t + notifications u := by
  simp [notifications, List.count_append]

theorem fetch_effects_counts (url : String) (code : Option String) (message : String) :
    statusLines [Effect.httpGet url 5000, Effect.print (fetchWarning code message)] = 0 ∧
    saveLogCalls [Effect.httpGet url 5000, Effect.print (fetchWarning code message)] = 0 ∧
    notifications [Effect.httpGet url 5000, Effect.print (fetchWarning code message)] = 0 := by
  unfold fetchWarning
  split_ifs <;> simp [statusLines, saveLogCalls, notifications, Effect.isStatus, Effect.isWrite]

theorem tick_failure_healthy (stringify : List JsObject → String) (i : TickInput)
    (s : State) (code : Option String) (message : String)
    (hf : i.fetch = FetchOutcome.failure code message)
    (hh : (checkHealth (fetchStatus i.fetch s).1).2 = true) :
    tick stringify i s =
      { s with
          monitor := { s.monitor with consecutiveFailures := s.monitor.consecutiveFailures + 1 }
          trace := s.trace ++ [Effect.httpGet s.monitor.apiUrl 5000,
            Effect.print (fetchWarning code message)] } := by
  rw [tick_failure stringify i s code message hf, checkHealth_eq, hh]
  rw [hf, fetchStatus_failure]
  simp

/-- C17: for every monitor state with `consecutiveFailures` below
`maxFailures - 1`, a tick whose fetch fails passes the health check and runs
`displayStatus`, `logReading` and `checkNewAlert` on `null`, which do nothing:
the tick is exactly its `fetchStatus`, whose only change to the monitor is
`consecutiveFailures` increasing by 1; `logData`, `lastAlertCount` and the log
file are unchanged, nothing is displayed or written, and no notification is
sent. -/
theorem C17_failed_fetch_below_threshold (stringify : List JsObject → String)
    (i : TickInput) (s : State) (code : Option String) (message : String)
    (hf : i.fetch = FetchOutcome.failure code message)
    (hlt : s.monitor.consecutiveFailures < s.monitor.maxFailures - 1) :
    (checkHealth (fetchStatus i.fetch s).1).2 = true ∧
    (∀ t : State, displayStatus none t = t ∧ logReading stringify i.now i.write none t = t ∧
      checkNewAlert none t = (t, false)) ∧
    tick stringify i s = (fetchStatus i.fetch s).1 ∧
    (tick stringify i s).monitor =
      { s.monitor with consecutiveFailures := s.monitor.consecutiveFailures + 1 } ∧
    (tick stringify i s).file = s.file ∧
    (tick stringify i s).trace =
      s.trace ++ [Effect.httpGet s.monitor.apiUrl 5000,
        Effect.print (fetchWarning code message)] ∧
    statusLines (tick stringify i s).trace = statusLines s.trace ∧
    saveLogCalls (tick stringify i s).trace = saveLogCalls s.trace ∧
    notifications (tick stringify i s).trace = notifications s.trace := by
  have hh : (checkHealth (fetchStatus i.fetch s).1).2 = true := by
    rw [checkHealth_returns, fetchStatus_monitor, hf]
    simp only [FetchOutcome.isFailure, if_true]
    omega
  have ht := tick_failure_healthy stringify i s code message hf hh
  refine ⟨hh, fun t => ⟨rfl, rfl, rfl⟩, ?_, ?_, ?_, ?_, ?_, ?_, ?_⟩
  · rw [ht, hf, fetchStatus_failure]
  · rw [ht]
  · rw [ht]
  · rw [ht]
  · rw [ht]
    simp only [statusLines_append, (fetch_effects_counts _ code message).1, add_zero]
  · rw [ht]
    simp only [saveLogCalls_append, (fetch_effects_counts _ code message).2.1, add_zero]
  · rw [ht]
    simp only [notifications_append, (fetch_effects_counts _ code message).2.2, add_zero]

/-- C17, at a fresh monitor and a tick whose fetch times out. -/
theorem C17_failed_fetch_below_threshold_witness :
    TickInput.timedOut.fetch =
      FetchOutcome.failure (some "ECONNABORTED") "timeout of 5000ms exceeded" ∧
    (State.init ARDUINO_IP none).monitor.consecutiveFailures <
      (State.init ARDUINO_IP none).monitor.maxFailures - 1 ∧
    (tick sampleStringify TickInput.timedOut (State.init ARDUINO_IP none)).monitor =
      { (State.init ARDUINO_IP none).monitor with
          consecutiveFailures := (State.init ARDUINO_IP none).monitor.consecutiveFailures + 1 } :=
  ⟨rfl, by decide,
    (C17_failed_fetch_below_threshold sampleStringify TickInput.timedOut
      (State.init ARDUINO_IP none) (some "ECONNABORTED") "timeout of 5000ms exceeded" rfl
      (by decide)).2.2.2.1⟩

/-! ## Alert edges on arbitrary sequences -/

theorem feedAlerts_cons (r : Reading) (rs : List Reading) (s : State) :
    feedAlerts (r :: rs) s =
      ((feedAlerts rs (checkNewAlert (some r) s).1).1,
        (checkNewAlert (some r) s).2 :: (feedAlerts rs (checkNewAlert (some r) s).1).2) := rfl

theorem feedAlerts_concat (xs ys : List Reading) (s : State) :
    feedAlerts (xs ++ ys) s =
      ((feedAlerts ys (feedAlerts xs s).1).1,
        (feedAlerts xs s).2 ++ (feedAlerts ys (feedAlerts xs s).1).2) := by
  induction xs generalizing s with
  | nil => rfl
  | cons x xs ih => simp only [List.cons_append, feedAlerts_cons, ih]

theorem feedAlerts_length (rs : List Reading) (s : State) :
    (feedAlerts rs s).2.length = rs.length := by
  induction rs generalizing s with
  | nil => rfl
  | cons r rs ih => simp only [feedAlerts_cons, List.length_cons, ih]

theorem feedAlerts_flag_at (pre : List Reading) (r : Reading) (post : List Reading)
    (s : State) :
    (feedAlerts (pre ++ r :: post) s).2[pre.length]? =
      some (checkNewAlert (some r) (feedAlerts pre s).1).2 := by
  rw [feedAlerts_concat, feedAlerts_cons]
  simp only
  rw [List.getElem?_append_right (by rw [feedAlerts_length])]
  simp [feedAlerts_length]

/-- C15: for every sequence of integer `totalAlerts` values, in any order, fed
one by one to `checkNewAlert` on a freshly constructed monitor, the call at a
position returns true if and only if its value is strictly greater than 0 and
than every earlier value, and `lastAlertCount` is the maximum of 0 and the
values seen so far; so after the counter drops no edge is reported until it
exceeds its previous maximum, as for 3, 1, 2, 3, 4, with edges at positions 1
and 5 only. -/
theorem C15_edges_are_new_maxima (arduinoIp : String) (file : Option String)
    (pre : List Reading) (r : Reading) (post : List Reading) :
    ((feedAlerts (pre ++ r :: post) (State.init arduinoIp file)).2[pre.length]? = some true ↔
      0 < r.totalAlerts ∧ ∀ p ∈ pre, p.totalAlerts < r.totalAlerts) ∧
    ((feedAlerts (pre ++ r :: post) (State.init arduinoIp file)).2[pre.length]? = some false ↔
      ¬ (0 < r.totalAlerts ∧ ∀ p ∈ pre, p.totalAlerts < r.totalAlerts)) ∧
    (feedAlerts pre (State.init arduinoIp file)).1.monitor.lastAlertCount =
      (pre.map Reading.totalAlerts).foldl max 0 ∧
    (feedAlerts ([3, 1, 2, 3, 4].map Reading.ofAlerts) (State.init arduinoIp file)).2 =
      [true, false, false, false, true] := by
  have hlast : (feedAlerts pre (State.init arduinoIp file)).1.monitor.lastAlertCount =
      (pre.map Reading.totalAlerts).foldl max 0 := feedAlerts_lastAlertCount pre _
  have hiff : (checkNewAlert (some r) (feedAlerts pre (State.init arduinoIp file)).1).2 = true ↔
      0 < r.totalAlerts ∧ ∀ p ∈ pre, p.totalAlerts < r.totalAlerts := by
    rw [checkNewAlert_returns, hlast, gt_iff_lt, foldl_max_lt_iff]
    simp
  refine ⟨?_, ?_, hlast, rfl⟩
  · rw [feedAlerts_flag_at, Option.some.injEq]
    exact hiff
  · rw [feedAlerts_flag_at, Option.some.injEq, ← hiff]
    simp

/-! ## Notifications against the alert count -/

theorem tick_notifications_le_increase (stringify : List JsObject → String) (i : TickInput)
    (s : State) :
    (notifications (tick stringify i s).trace : Int) - notifications s.trace ≤
      (tick stringify i s).monitor.lastAlertCount - s.monitor.lastAlertCount := by
  by_cases hmax : 0 < s.monitor.maxFailures
  · rw [tick_notifications stringify i s hmax]
    cases hf : i.fetch with
    | success r =>
      rw [tick_success_monitor stringify i s r hf hmax]
      simp only
      split_ifs with hgt
      · rw [max_eq_right (le_of_lt hgt)]
        push_cast
        omega
      · rw [max_eq_left (not_lt.mp hgt)]
        simp
    | failure code message =>
      rw [tick_monitor_of_not_logged stringify i s (Or.inl (by rw [hf]; rfl))]
      simp
  · have h0 : s.monitor.maxFailures = 0 := Nat.eq_zero_of_not_pos hmax
    rw [tick_unhealthy_notifications stringify i s
        (checkHealth_false_of_maxFailures_zero _ s h0),
      tick_monitor_of_not_logged stringify i s (Or.inr h0)]
    simp

theorem runTicks_notifications_le_increase (stringify : List JsObject → String)
    (is : List TickInput) (s : State) :
    (notifications (runTicks stringify is s).trace : Int) - notifications s.trace ≤
      (runTicks stringify is s).monitor.lastAlertCount - s.monitor.lastAlertCount := by
  induction is generalizing s with
  | nil => simp [runTicks]
  | cons i is ih =>
    rw [runTicks_cons]
    have h1 := tick_notifications_le_increase stringify i s
    have h2 := ih (tick stringify i s)
    omega

/-- C16: for every sequence of poll ticks on a freshly constructed monitor,
with any integer `totalAlerts` values, the number of notifications sent so far
is at most the current `lastAlertCount`: over any ticks the number of
notifications grows by no more than `lastAlertCount` does, and both start at
0. -/
theorem C16_notifications_le_lastAlertCount (stringify : List JsObject → String) :
    (∀ (i : TickInput) (s : State),
      (notifications (tick stringify i s).trace : Int) - notifications s.trace ≤
        (tick stringify i s).monitor.lastAlertCount - s.monitor.lastAlertCount) ∧
    (∀ (arduinoIp : String) (file : Option String) (is : List TickInput),
      (notifications (runTicks stringify is (State.init arduinoIp file)).trace : Int) ≤
        (runTicks stringify is (State.init arduinoIp file)).monitor.lastAlertCount) ∧
    (∀ (arduinoIp : String) (file : Option String) (pollInterval : Nat)
        (is : List TickInput),
      (notifications (runTicks stringify is
          (banner pollInterval (State.init arduinoIp file))).trace : Int) ≤
        (runTicks stringify is
          (banner pollInterval (State.init arduinoIp file))).monitor.lastAlertCount) := by
  refine ⟨tick_notifications_le_increase stringify, ?_, ?_⟩
  · intro arduinoIp file is
    have h := runTicks_notifications_le_increase stringify is (State.init arduinoIp file)
    have h0 : notifications (State.init arduinoIp file).trace = 0 := rfl
    have h1 : (State.init arduinoIp file).monitor.lastAlertCount = 0 := rfl
    rw [h0, h1] at h
    simpa using h
  · intro arduinoIp file pollInterval is
    have h := runTicks_notifications_le_increase stringify is
      (banner pollInterval (State.init arduinoIp file))
    have h0 : notifications (banner pollInterval (State.init arduinoIp file)).trace = 0 := by
      simp only [banner, notifications_log]
      rfl
    have h1 : (banner pollInterval (State.init arduinoIp file)).monitor.lastAlertCount = 0 :=
      rfl
    rw [h0, h1] at h
    simpa using h

/-! ## The log entry -/

end WaterSensor
